import Mathlib

/-!
Verification of the lifec_tb trading bot's position state machine and signal
aggregation, shallowly embedded from the Python sources.  Prices, balances and
percentages are modelled as rationals; `Option ℚ` models Python's
`Optional[float]`, with `pyTruthy` capturing Python truthiness (`None` and
`0.0` are falsy).  Two near-duplicate position managers exist in the source:
namespace `PM` embeds `src/position_manager.py` and namespace `PM1` embeds
`src/position_manager_1.py`.
-/

namespace LifecTb

/-- One OHLC bar as stored in the price-history deque (`high`, `low`, `close`). -/
structure Candle where
  high : ℚ
  low : ℚ
  close : ℚ
deriving Repr, DecidableEq

/-- Python truthiness of an `Optional[float]`: `None` and `0.0` are falsy. -/
def pyTruthy : Option ℚ → Bool
  | none => false
  | some a => decide (a ≠ 0)

/-- Python's `str.upper()` (character-wise upper-casing of the signal labels). -/
def pyUpper (s : String) : String := ⟨s.data.map Char.toUpper⟩

/-- True range of a bar given the previous bar, from `calculate_atr`:
`max(high-low, |high-prevClose|, |low-prevClose|)`. -/
def trueRange (prev cur : Candle) : ℚ :=
  max (cur.high - cur.low) (max |cur.high - prev.close| |cur.low - prev.close|)

/-- The list of true ranges over consecutive pairs of the price history,
mirroring the `for i in range(1, len(prices))` loop of `calculate_atr`. -/
def trValues : List Candle → List ℚ
  | [] => []
  | [_] => []
  | p :: c :: rest => trueRange p c :: trValues (c :: rest)

/-- `collections.deque(maxlen=m)` append: add at the right, evicting from the
left when capacity is exceeded. -/
def dequeAppend (maxlen : ℕ) (xs : List Candle) (c : Candle) : List Candle :=
  let ys := xs ++ [c]
  ys.drop (ys.length - maxlen)

/-- The immutable data of an active trade (`self.current_position` dict). -/
structure Position where
  symbol : String
  quantity : ℚ
  entry_price : ℚ
  reason : String
deriving Repr, DecidableEq

/-- The trailing-stop recomputation of `update_risk` on a new high:
ATR-based (`highest - stop_loss_mult*atr`) when `self.atr` is truthy,
percentage-based (`highest*(1 - trailing_stop_pct)`) otherwise. -/
def stopFormula (atr : Option ℚ) (stop_loss_mult trailing_stop_pct high : ℚ) : ℚ :=
  if pyTruthy atr then high - stop_loss_mult * atr.getD 0
  else high * (1 - trailing_stop_pct)

/-- `current_price > self.highest_price` with the `None` case of the source's
`if self.highest_price is None or ...`. -/
def newHighB (highest : Option ℚ) (p : ℚ) : Bool :=
  match highest with
  | none => true
  | some h => decide (h < p)

namespace PM

/-- A closed-trade record as appended to `position_log` in
`src/position_manager.py`. -/
structure ClosedPosition where
  symbol : String
  quantity : ℚ
  entry_price : ℚ
  exit_price : ℚ
  pnl : ℚ
  reason : String
  timestamp : Option ℚ
deriving Repr, DecidableEq

/-- The mutable state of `PositionManager` in `src/position_manager.py`. -/
structure PMState where
  balance : ℚ
  current_position : Option Position
  position_log : List ClosedPosition
  highest_price : Option ℚ
  trailing_stop : Option ℚ
  atr_period : ℕ
  price_history : List Candle
  atr : Option ℚ
  trailing_stop_pct : ℚ
  stop_loss_mult : ℚ
  fixed_stop_pct : ℚ
  watch_mode : Bool
  watch_mode_entered : Option ℚ
deriving Repr, DecidableEq

/-- `PositionManager.__init__` with the source's default risk parameters
(`atr_period=14`, `trailing_stop_pct=0.02`, `stop_loss_mult=1.5`,
`fixed_stop_pct=1`). -/
def mkPMState (initial_balance : ℚ) (atr_period : ℕ) (trailing_stop_pct stop_loss_mult fixed_stop_pct : ℚ) : PMState :=
  { balance := initial_balance
    current_position := none
    position_log := []
    highest_price := none
    trailing_stop := none
    atr_period := atr_period
    price_history := []
    atr := none
    trailing_stop_pct := trailing_stop_pct
    stop_loss_mult := stop_loss_mult
    fixed_stop_pct := fixed_stop_pct
    watch_mode := false
    watch_mode_entered := none }

/-- `PositionManager.enter_position`: raises `"Position already active."` if a
position exists (leaving the state as it was), otherwise creates the position,
primes `highest_price` and the percentage trailing stop, and resets watch mode.
The second component is the raised error message, if any. -/
def enter_position (s : PMState) (symbol : String) (quantity entry_price : ℚ)
    (reason : String) : PMState × Option String :=
  if s.current_position.isSome then
    (s, some "Position already active.")
  else
    ({ s with
        current_position := some ⟨symbol, quantity, entry_price, reason⟩
        highest_price := some entry_price
        trailing_stop := some (entry_price * (1 - s.trailing_stop_pct))
        watch_mode := false
        watch_mode_entered := none }, none)

/-- `PositionManager.exit_position`: no-op when flat; otherwise computes the
two-sided fee at rate 0.001, credits the P&L to the balance, appends the
closed-trade record and clears the position state. -/
def exit_position (s : PMState) (exit_price : ℚ) (exit_reason : String)
    (timestamp : Option ℚ) : PMState :=
  match s.current_position with
  | none => s
  | some pos =>
    let fee_rate : ℚ := 1/1000
    let fees := pos.entry_price * pos.quantity * fee_rate
      + exit_price * pos.quantity * fee_rate
    let pnl := (exit_price - pos.entry_price) * pos.quantity - fees
    { s with
        balance := s.balance + pnl
        position_log := s.position_log ++
          [⟨pos.symbol, pos.quantity, pos.entry_price, exit_price, pnl, exit_reason, timestamp⟩]
        current_position := none
        highest_price := none
        trailing_stop := none
        watch_mode := false
        watch_mode_entered := none }

/-- `PositionManager.calculate_atr`: `None` until the window holds
`atr_period + 1` bars, else the mean of the true ranges over the window. -/
def calculate_atr (s : PMState) : Option ℚ :=
  if s.price_history.length < s.atr_period + 1 then none
  else some ((trValues s.price_history).sum / (s.atr_period : ℚ))

/-- `PositionManager.update_risk` of `src/position_manager.py`: on a new high,
record it and recompute the trailing stop; if not in watch mode, activate watch
mode once `current_price >= entry_price * 1.45` (the constant `1.45` is
hard-coded in the source); finally, in watch mode, exit on a trailing-stop
breach. -/
def update_risk (s : PMState) (current_price : ℚ) (timestamp : Option ℚ) : PMState :=
  match s.current_position with
  | none => s
  | some pos =>
    let s1 :=
      if newHighB s.highest_price current_price then
        { s with
            highest_price := some current_price
            trailing_stop :=
              some (LifecTb.stopFormula s.atr s.stop_loss_mult s.trailing_stop_pct current_price) }
      else s
    let s2 :=
      if s1.watch_mode = false ∧ pos.entry_price * (29/20) ≤ current_price then
        { s1 with watch_mode := true, watch_mode_entered := timestamp }
      else s1
    if s2.watch_mode = true ∧ pyTruthy s2.trailing_stop = true
        ∧ current_price ≤ s2.trailing_stop.getD 0 then
      exit_position s2 current_price "Trailing Stop" timestamp
    else s2

/-- The red-candle check at the end of `monitor_position` in
`src/position_manager.py`: in watch mode with an open price provided, exit when
`current_price + open_price*0.01 < open_price` (a hard-coded 1% tolerance
band). -/
def redCandleCheck (s : PMState) (current_price : ℚ) (open_price : Option ℚ)
    (timestamp : Option ℚ) : PMState :=
  match open_price with
  | none => s
  | some o =>
    if s.watch_mode = true ∧ current_price + o * (1/100) < o then
      exit_position s current_price "Watch Mode Red Candle" timestamp
    else s

/-- `PositionManager.monitor_position`: no-op when flat; otherwise appends the
candle (high/low defaulting to the close), recomputes the ATR, runs
`update_risk`, and finally applies the red-candle check. -/
def monitor_position (s : PMState) (current_price : ℚ) (open_price high low : Option ℚ)
    (timestamp : Option ℚ) : PMState :=
  match s.current_position with
  | none => s
  | some _ =>
    let hl : ℚ × ℚ :=
      if high.isSome ∧ low.isSome then (high.getD current_price, low.getD current_price)
      else (current_price, current_price)
    let s1 := { s with
      price_history := dequeAppend (s.atr_period + 1) s.price_history ⟨hl.1, hl.2, current_price⟩ }
    let s2 := { s1 with atr := calculate_atr s1 }
    let s3 := update_risk s2 current_price timestamp
    redCandleCheck s3 current_price open_price timestamp

end PM

namespace PM1

/-- A closed-trade record as appended to `position_log` in
`src/position_manager_1.py`, extended with the skim fields. -/
structure ClosedPosition1 where
  symbol : String
  quantity : ℚ
  entry_price : ℚ
  exit_price : ℚ
  pnl : ℚ
  reason : String
  timestamp : Option ℚ
  profit_taken : ℚ
  profit_taken_count : ℕ
deriving Repr, DecidableEq

/-- The mutable state of `PositionManager` in `src/position_manager_1.py`,
which additionally tracks the initial balance, the profit account and the
profit-taking counter, and a mode used by the backtest accounting. -/
structure PM1State where
  initial_balance : ℚ
  balance : ℚ
  profit_account : ℚ
  profit_taken_count : ℕ
  mode : String
  current_position : Option Position
  position_log : List ClosedPosition1
  highest_price : Option ℚ
  trailing_stop : Option ℚ
  atr_period : ℕ
  price_history : List Candle
  atr : Option ℚ
  trailing_stop_pct : ℚ
  stop_loss_mult : ℚ
  fixed_stop_pct : ℚ
  watch_mode : Bool
  watch_mode_entered : Option ℚ
deriving Repr, DecidableEq

/-- `PositionManager.__init__` of `src/position_manager_1.py`. -/
def mkPM1State (initial_balance : ℚ) (mode : String) (atr_period : ℕ)
    (trailing_stop_pct stop_loss_mult fixed_stop_pct : ℚ) : PM1State :=
  { initial_balance := initial_balance
    balance := initial_balance
    profit_account := 0
    profit_taken_count := 0
    mode := mode
    current_position := none
    position_log := []
    highest_price := none
    trailing_stop := none
    atr_period := atr_period
    price_history := []
    atr := none
    trailing_stop_pct := trailing_stop_pct
    stop_loss_mult := stop_loss_mult
    fixed_stop_pct := fixed_stop_pct
    watch_mode := false
    watch_mode_entered := none }

/-- `PositionManager.enter_position` of `src/position_manager_1.py`: raises
when a position is active; otherwise creates the position and, in backtest
mode, deducts the used funds from the balance. -/
def enter_position (s : PM1State) (symbol : String) (quantity entry_price : ℚ)
    (reason : String) : PM1State × Option String :=
  if s.current_position.isSome then
    (s, some "Position already active.")
  else
    ({ s with
        current_position := some ⟨symbol, quantity, entry_price, reason⟩
        balance := if s.mode = "backtest" then s.balance - quantity * entry_price else s.balance
        highest_price := some entry_price
        trailing_stop := some (entry_price * (1 - s.trailing_stop_pct))
        watch_mode := false
        watch_mode_entered := none }, none)

/-- `PositionManager.exit_position` of `src/position_manager_1.py`: credits the
P&L, then applies the profit-skim rule — if the balance exceeds
`initial_balance*1.10`, the excess is moved to `profit_account`, the balance is
clamped to the target, the counter is incremented and the skim is recorded on
the appended closed trade. -/
def exit_position (s : PM1State) (exit_price : ℚ) (exit_reason : String)
    (timestamp : Option ℚ) : PM1State :=
  match s.current_position with
  | none => s
  | some pos =>
    let fee_rate : ℚ := 1/1000
    let fees := pos.entry_price * pos.quantity * fee_rate
      + exit_price * pos.quantity * fee_rate
    let pnl := (exit_price - pos.entry_price) * pos.quantity - fees
    let balance1 := s.balance + pnl
    let target_balance := s.initial_balance * (11/10)
    if target_balance < balance1 then
      let profit_to_take := balance1 - target_balance
      { s with
          balance := target_balance
          profit_account := s.profit_account + profit_to_take
          profit_taken_count := s.profit_taken_count + 1
          position_log := s.position_log ++
            [⟨pos.symbol, pos.quantity, pos.entry_price, exit_price, pnl, exit_reason,
              timestamp, profit_to_take, s.profit_taken_count + 1⟩]
          current_position := none
          highest_price := none
          trailing_stop := none
          watch_mode := false
          watch_mode_entered := none }
    else
      { s with
          balance := balance1
          position_log := s.position_log ++
            [⟨pos.symbol, pos.quantity, pos.entry_price, exit_price, pnl, exit_reason,
              timestamp, 0, s.profit_taken_count⟩]
          current_position := none
          highest_price := none
          trailing_stop := none
          watch_mode := false
          watch_mode_entered := none }

/-- `PositionManager.calculate_atr` of `src/position_manager_1.py` (identical
to the first version). -/
def calculate_atr (s : PM1State) : Option ℚ :=
  if s.price_history.length < s.atr_period + 1 then none
  else some ((trValues s.price_history).sum / (s.atr_period : ℚ))

/-- `PositionManager.update_risk` of `src/position_manager_1.py`: as in the
first version but the watch-mode threshold is the hard-coded `1.05`, and the
method returns before the trailing-stop check unless watch mode was already
active when the check block is reached. -/
def update_risk (s : PM1State) (current_price : ℚ) (timestamp : Option ℚ) : PM1State :=
  match s.current_position with
  | none => s
  | some pos =>
    let s1 :=
      if newHighB s.highest_price current_price then
        { s with
            highest_price := some current_price
            trailing_stop :=
              some (LifecTb.stopFormula s.atr s.stop_loss_mult s.trailing_stop_pct current_price) }
      else s
    if s1.watch_mode = false then
      if pos.entry_price * (21/20) ≤ current_price then
        { s1 with watch_mode := true, watch_mode_entered := timestamp }
      else s1
    else
      if pyTruthy s1.trailing_stop = true ∧ current_price ≤ s1.trailing_stop.getD 0 then
        exit_position s1 current_price "Trailing Stop" timestamp
      else s1

/-- The red-candle check at the end of `monitor_position` in
`src/position_manager_1.py`: in watch mode with an open price provided, exit
when `current_price < open_price` (no tolerance band). -/
def redCandleCheck (s : PM1State) (current_price : ℚ) (open_price : Option ℚ)
    (timestamp : Option ℚ) : PM1State :=
  match open_price with
  | none => s
  | some o =>
    if s.watch_mode = true ∧ current_price < o then
      exit_position s current_price "Watch Mode Red Candle" timestamp
    else s

/-- `PositionManager.monitor_position` of `src/position_manager_1.py`. -/
def monitor_position (s : PM1State) (current_price : ℚ) (open_price high low : Option ℚ)
    (timestamp : Option ℚ) : PM1State :=
  match s.current_position with
  | none => s
  | some _ =>
    let hl : ℚ × ℚ :=
      if high.isSome ∧ low.isSome then (high.getD current_price, low.getD current_price)
      else (current_price, current_price)
    let s1 := { s with
      price_history := dequeAppend (s.atr_period + 1) s.price_history ⟨hl.1, hl.2, current_price⟩ }
    let s2 := { s1 with atr := calculate_atr s1 }
    let s3 := update_risk s2 current_price timestamp
    redCandleCheck s3 current_price open_price timestamp

end PM1

namespace StrategyManager

/-- `StrategyManager.aggregate_signals` of `src/StrategyManager.py`: scans the
mapping indicator → (interval → label) in order and collects the
`(indicator, interval)` pairs labelled `BUY` and `SELL` (after upper-casing). -/
def aggregate_signals (signals : List (String × List (String × String))) :
    List (String × String) × List (String × String) :=
  signals.foldl
    (fun acc p =>
      p.2.foldl
        (fun acc2 q =>
          if pyUpper q.2 = "BUY" then (acc2.1 ++ [(p.1, q.1)], acc2.2)
          else if pyUpper q.2 = "SELL" then (acc2.1, acc2.2 ++ [(p.1, q.1)])
          else acc2)
        acc)
    ([], [])

/-- `StrategyManager.process_signals`: SELL-priority decision — SELL when any
sell vote exists, else BUY when any buy vote exists, else HOLD.  Returns the
action retrievable via `get_action`. -/
def process_signals (signals : List (String × List (String × String))) : String :=
  let bs := aggregate_signals signals
  if bs.2 ≠ [] then "SELL"
  else if bs.1 ≠ [] then "BUY"
  else "HOLD"

end StrategyManager

/-- `combine_signals` of `src/skeleton_main_backtest.py`: BUY only when both
timeframe signals are BUY; SELL when either is SELL; otherwise HOLD. -/
def combine_signals (signal_15m signal_1h : String) : String :=
  if signal_15m = "BUY" ∧ signal_1h = "BUY" then "BUY"
  else if signal_15m = "SELL" ∨ signal_1h = "SELL" then "SELL"
  else "HOLD"

/-! Concrete states used to evaluate the embedded operations, built as the
backtest driver does: a fresh manager with the constructor's default risk
parameters, then `enter_position`. -/

/-- A fresh `src/position_manager.py` manager with the default parameters. -/
def freshPM : PM.PMState := PM.mkPMState 1000 14 (1/50) (3/2) 1

/-- `freshPM` after entering 1 unit at price 100. -/
def openPM : PM.PMState := (PM.enter_position freshPM "LTCUSDT" 1 100 "Signal BUY").1

/-- A fresh `src/position_manager_1.py` manager in backtest mode. -/
def freshPM1 : PM1.PM1State := PM1.mkPM1State 1000 "backtest" 14 (1/50) (3/2) 1

/-- `freshPM1` after entering 1 unit at price 100. -/
def openPM1 : PM1.PM1State := (PM1.enter_position freshPM1 "LTCUSDT" 1 100 "Signal BUY").1

/-- `freshPM1` after entering 10 units at price 100 (balance drops to 0). -/
def openPM1Ten : PM1.PM1State :=
  (PM1.enter_position freshPM1 "LTCUSDT" 10 100 "Signal BUY").1

/-- `freshPM` after entering 10 units at price 100. -/
def openPMTen : PM.PMState := (PM.enter_position freshPM "LTCUSDT" 10 100 "Signal BUY").1

/-- A fresh `PM` manager with ATR period 1, so the volatility window fills
after two candles. -/
def c3Fresh : PM.PMState := PM.mkPMState 1000 1 (1/50) (3/2) 1

/-- `c3Fresh` after entering 1 unit at 100: trailing stop 98. -/
def c3Open : PM.PMState := (PM.enter_position c3Fresh "LTCUSDT" 1 100 "Signal BUY").1

/-- `c3Open` after one flat candle at 100 (window not yet full, ATR `None`). -/
def c3AfterFlat : PM.PMState :=
  PM.monitor_position c3Open 100 none (some 100) (some 100) (some 1)

/-- `c3AfterFlat` after a wide candle (high 150, low 90) closing at 101: the
window is full, the ATR jumps to 60, and the price makes a new high. -/
def c3AfterSpike : PM.PMState :=
  PM.monitor_position c3AfterFlat 101 none (some 150) (some 90) (some 2)

/-- `openPM` with watch mode already active. -/
def watchPM : PM.PMState := { openPM with watch_mode := true, watch_mode_entered := some 0 }

/-- `openPM1` with watch mode already active. -/
def watchPM1 : PM1.PM1State := { openPM1 with watch_mode := true, watch_mode_entered := some 0 }

/-- `openPM` with a recorded zero ATR (volatility window full of identical
degenerate bars). -/
def zeroAtrPM : PM.PMState := { openPM with atr := some 0 }

/-! Helper lemmas shared by the claim theorems. -/

/-- Both branches of the trailing-stop recomputation are monotone in the new
high, provided the percentage is at most 1. -/
theorem stopFormula_mono (atr : Option ℚ) (m pct : ℚ) (hpct : pct ≤ 1) {h p : ℚ}
    (hp : h ≤ p) : stopFormula atr m pct h ≤ stopFormula atr m pct p := by
  unfold stopFormula
  split
  · exact sub_le_sub_right hp _
  · exact mul_le_mul_of_nonneg_right hp (by linarith)

/-- Exiting a state that holds a position always clears `current_position`. -/
theorem pm_exit_clears_position (s : PM.PMState) (pos : Position) (p : ℚ) (r : String)
    (ts : Option ℚ) (h : s.current_position = some pos) :
    (PM.exit_position s p r ts).current_position = none := by
  simp [PM.exit_position, h]

/-- `PM1` version of `pm_exit_clears_position`. -/
theorem pm1_exit_clears_position (s : PM1.PM1State) (pos : Position) (p : ℚ) (r : String)
    (ts : Option ℚ) (h : s.current_position = some pos) :
    (PM1.exit_position s p r ts).current_position = none := by
  simp only [PM1.exit_position, h]
  split_ifs <;> rfl

/-- `update_risk` never clears watch mode: starting in watch mode it either
exits the position or stays in watch mode. -/
theorem pm_update_risk_preserves_watch (s : PM.PMState) (p : ℚ) (ts : Option ℚ)
    (hw : s.watch_mode = true) :
    (PM.update_risk s p ts).current_position = none ∨
    (PM.update_risk s p ts).watch_mode = true := by
  cases hcp : s.current_position with
  | none => right; simp [PM.update_risk, hcp, hw]
  | some pos =>
    simp only [PM.update_risk, hcp]
    split_ifs <;>
      first
      | exact Or.inl (pm_exit_clears_position _ pos p "Trailing Stop" ts (by simp [hcp]))
      | exact Or.inr (by simp [hw])

/-- The red-candle check either leaves the state untouched or exits (clearing
the position). -/
theorem pm_redCandle_cases (s : PM.PMState) (p : ℚ) (o ts : Option ℚ) :
    PM.redCandleCheck s p o ts = s ∨
    (PM.redCandleCheck s p o ts).current_position = none := by
  cases o with
  | none => left; rfl
  | some v =>
    by_cases hc : s.watch_mode = true ∧ p + v * (1/100) < v
    · have hred : PM.redCandleCheck s p (some v) ts =
          PM.exit_position s p "Watch Mode Red Candle" ts := by
        simp only [PM.redCandleCheck]
        rw [if_pos hc]
      cases hcp : s.current_position with
      | none => left; rw [hred]; simp [PM.exit_position, hcp]
      | some pos =>
        right
        rw [hred]
        exact pm_exit_clears_position s pos p _ ts hcp
    · left
      simp only [PM.redCandleCheck]
      rw [if_neg hc]

/-- The tail of `monitor_position` (risk update followed by the red-candle
check) never clears watch mode while the position stays open. -/
theorem pm_monitor_watch_aux (s2 : PM.PMState) (p : ℚ) (o ts : Option ℚ)
    (hw2 : s2.watch_mode = true) :
    (PM.redCandleCheck (PM.update_risk s2 p ts) p o ts).current_position ≠ none →
    (PM.redCandleCheck (PM.update_risk s2 p ts) p o ts).watch_mode = true := by
  intro hne
  rcases pm_redCandle_cases (PM.update_risk s2 p ts) p o ts with he | he
  · rw [he] at hne ⊢
    rcases pm_update_risk_preserves_watch s2 p ts hw2 with h | h
    · exact absurd h hne
    · exact h
  · exact absurd he hne

/-- On a window of identical degenerate bars all true ranges are zero. -/
theorem trValues_replicate_sum (v : ℚ) :
    ∀ n, (trValues (List.replicate n (⟨v, v, v⟩ : Candle))).sum = 0
  | 0 => by simp [trValues]
  | 1 => by simp [trValues]
  | (n+2) => by
    have ih := trValues_replicate_sum v (n+1)
    show (trueRange ⟨v, v, v⟩ ⟨v, v, v⟩ ::
      trValues (List.replicate (n+1) ⟨v, v, v⟩)).sum = 0
    rw [List.sum_cons, ih]
    simp [trueRange]

/-- `C1` (code_bug): the watch-mode threshold is hard-coded, not configurable.
With entry price 100, a price of 105 (5% above entry — the threshold the
source's own comments and log message describe) leaves `watch_mode` false in
`position_manager.py`, which only activates at 145 (a hard-coded 45%), while
`position_manager_1.py` activates at 105 (a hard-coded 5%). -/
theorem c1_watch_threshold_hardcoded :
    (PM.update_risk openPM 105 (some 1)).watch_mode = false ∧
    (PM.update_risk openPM 105 (some 1)).watch_mode_entered = none ∧
    (PM1.update_risk openPM1 105 (some 1)).watch_mode = true ∧
    (PM1.update_risk openPM1 105 (some 1)).watch_mode_entered = some 1 ∧
    (PM.update_risk openPM 145 (some 2)).watch_mode = true := by
  norm_num [PM.update_risk, PM1.update_risk, openPM, openPM1, freshPM, freshPM1,
    PM.mkPMState, PM1.mkPM1State, PM.enter_position, PM1.enter_position, newHighB,
    stopFormula, pyTruthy, PM.exit_position, PM1.exit_position]

/-- `C2`: after any exit of an open position (`src/position_manager_1.py`),
the balance is clamped to at most `initial_balance*1.10`; when the post-P&L
balance exceeds that target, the excess goes to the profit account, the
balance equals the target exactly, the profit-taking counter is incremented,
and the skimmed amount is recorded on the appended closed trade. -/
theorem c2_profit_skim_clamps_balance (s : PM1.PM1State) (pos : Position) (p : ℚ)
    (r : String) (ts : Option ℚ) (hpos : s.current_position = some pos) :
    ((PM1.exit_position s p r ts).balance ≤ s.initial_balance * (11/10)) ∧
    (s.initial_balance * (11/10) <
        s.balance + ((p - pos.entry_price) * pos.quantity
          - (pos.entry_price + p) * pos.quantity * (1/1000)) →
      (PM1.exit_position s p r ts).balance = s.initial_balance * (11/10) ∧
      (PM1.exit_position s p r ts).profit_account = s.profit_account +
        (s.balance + ((p - pos.entry_price) * pos.quantity
          - (pos.entry_price + p) * pos.quantity * (1/1000)) - s.initial_balance * (11/10)) ∧
      (PM1.exit_position s p r ts).profit_taken_count = s.profit_taken_count + 1 ∧
      (PM1.exit_position s p r ts).position_log = s.position_log ++
        [⟨pos.symbol, pos.quantity, pos.entry_price, p,
          (p - pos.entry_price) * pos.quantity
            - (pos.entry_price + p) * pos.quantity * (1/1000),
          r, ts,
          s.balance + ((p - pos.entry_price) * pos.quantity
            - (pos.entry_price + p) * pos.quantity * (1/1000)) - s.initial_balance * (11/10),
          s.profit_taken_count + 1⟩]) := by
  have hpnl : (p - pos.entry_price) * pos.quantity
      - (pos.entry_price * pos.quantity * (1/1000) + p * pos.quantity * (1/1000))
      = (p - pos.entry_price) * pos.quantity
        - (pos.entry_price + p) * pos.quantity * (1/1000) := by ring
  rw [← hpnl]
  simp only [PM1.exit_position, hpos]
  split_ifs with hcond
  · exact ⟨le_refl _, fun _ => ⟨rfl, rfl, rfl, rfl⟩⟩
  · exact ⟨le_of_not_lt hcond, fun hgt => absurd hgt hcond⟩

/-- Witness for `C2`: with initial balance 1000, a position of 10 units
entered at 100 and exited at 220 pushes the balance past 1100, so it is
clamped to 1100 and the counter increments. -/
theorem c2_profit_skim_clamps_balance_witness :
    ((PM1.exit_position openPM1Ten 220 "SELL Signal" none).balance ≤
      openPM1Ten.initial_balance * (11/10)) ∧
    (PM1.exit_position openPM1Ten 220 "SELL Signal" none).balance =
      openPM1Ten.initial_balance * (11/10) ∧
    (PM1.exit_position openPM1Ten 220 "SELL Signal" none).profit_taken_count =
      openPM1Ten.profit_taken_count + 1 := by
  have h := c2_profit_skim_clamps_balance openPM1Ten ⟨"LTCUSDT", 10, 100, "Signal BUY"⟩
    220 "SELL Signal" none rfl
  have hgt : openPM1Ten.initial_balance * (11/10) <
      openPM1Ten.balance + ((220 - (100:ℚ)) * 10 - ((100:ℚ) + 220) * 10 * (1/1000)) := by
    norm_num [openPM1Ten, freshPM1, PM1.mkPM1State, PM1.enter_position]
  exact ⟨h.1, (h.2 hgt).1, (h.2 hgt).2.2.1⟩

/-- `C5`: the aggregated decision follows SELL priority — any sell vote gives
SELL regardless of buy votes; otherwise any buy vote gives BUY; otherwise
HOLD. -/
theorem c5_sell_priority (signals : List (String × List (String × String))) :
    ((StrategyManager.aggregate_signals signals).2 ≠ [] →
      StrategyManager.process_signals signals = "SELL") ∧
    ((StrategyManager.aggregate_signals signals).2 = [] →
      (StrategyManager.aggregate_signals signals).1 ≠ [] →
      StrategyManager.process_signals signals = "BUY") ∧
    ((StrategyManager.aggregate_signals signals).2 = [] →
      (StrategyManager.aggregate_signals signals).1 = [] →
      StrategyManager.process_signals signals = "HOLD") := by
  unfold StrategyManager.process_signals
  refine ⟨fun hs => ?_, fun hs hb => ?_, fun hs hb => ?_⟩
  · simp [hs]
  · simp [hs, hb]
  · simp [hs, hb]

/-- Witness for `C5`: one MACD sell vote and one buy vote yield SELL. -/
theorem c5_sell_priority_witness :
    (StrategyManager.aggregate_signals [("MACD", [("15m", "BUY"), ("1h", "SELL")])]).2 ≠ [] ∧
    StrategyManager.process_signals [("MACD", [("15m", "BUY"), ("1h", "SELL")])] = "SELL" :=
  ⟨by decide, (c5_sell_priority [("MACD", [("15m", "BUY"), ("1h", "SELL")])]).1 (by decide)⟩

/-- `C6`: on exit, the realized P&L equals
`(exitPrice − entryPrice)·qty − (entryPrice + exitPrice)·qty·0.001`; the
balance is credited by exactly this P&L and the appended record carries it. -/
theorem c6_realized_pnl (s : PM.PMState) (pos : Position) (p : ℚ) (r : String)
    (ts : Option ℚ) (hpos : s.current_position = some pos) :
    (PM.exit_position s p r ts).balance =
      s.balance + ((p - pos.entry_price) * pos.quantity
        - (pos.entry_price + p) * pos.quantity * (1/1000)) ∧
    (PM.exit_position s p r ts).position_log = s.position_log ++
      [⟨pos.symbol, pos.quantity, pos.entry_price, p,
        (p - pos.entry_price) * pos.quantity - (pos.entry_price + p) * pos.quantity * (1/1000),
        r, ts⟩] := by
  have hpnl : (p - pos.entry_price) * pos.quantity
      - (pos.entry_price * pos.quantity * (1/1000) + p * pos.quantity * (1/1000))
      = (p - pos.entry_price) * pos.quantity
        - (pos.entry_price + p) * pos.quantity * (1/1000) := by ring
  rw [← hpnl]
  simp [PM.exit_position, hpos]

/-- Witness for `C6`: entry 100, quantity 10, exit 110 gives P&L 97.9 and the
balance rises from 1000 to 1097.9. -/
theorem c6_realized_pnl_witness :
    (PM.exit_position openPMTen 110 "SELL Signal" none).balance = 1000 + 979/10 ∧
    (PM.exit_position openPMTen 110 "SELL Signal" none).position_log =
      [⟨"LTCUSDT", 10, 100, 110, 979/10, "SELL Signal", none⟩] := by
  have h := c6_realized_pnl openPMTen ⟨"LTCUSDT", 10, 100, "Signal BUY"⟩ 110 "SELL Signal"
    none rfl
  refine ⟨?_, ?_⟩
  · rw [h.1]; norm_num [openPMTen, freshPM, PM.mkPMState, PM.enter_position]
  · rw [h.2]; norm_num [openPMTen, freshPM, PM.mkPMState, PM.enter_position]

/-- `C7`: `enter_position` (both versions) raises exactly when a position is
already active, and on the raising path the whole state is returned
unchanged. -/
theorem c7_enter_already_active (s : PM.PMState) (t : PM1.PM1State) (sym : String)
    (q e : ℚ) (r : String) :
    ((PM.enter_position s sym q e r).2.isSome = true ↔ s.current_position.isSome = true) ∧
    (s.current_position.isSome = true → (PM.enter_position s sym q e r).1 = s) ∧
    ((PM1.enter_position t sym q e r).2.isSome = true ↔ t.current_position.isSome = true) ∧
    (t.current_position.isSome = true → (PM1.enter_position t sym q e r).1 = t) := by
  unfold PM.enter_position PM1.enter_position
  by_cases hs : s.current_position.isSome = true <;>
    by_cases ht : t.current_position.isSome = true <;>
      simp [hs, ht]

/-- Witness for `C7`: with a position open, both managers raise and hand back
the untouched state. -/
theorem c7_enter_already_active_witness :
    (PM.enter_position openPM "LTCUSDT" 1 50 "Signal BUY").1 = openPM ∧
    (PM1.enter_position openPM1 "LTCUSDT" 1 50 "Signal BUY").1 = openPM1 :=
  ⟨(c7_enter_already_active openPM openPM1 "LTCUSDT" 1 50 "Signal BUY").2.1 (by decide),
   (c7_enter_already_active openPM openPM1 "LTCUSDT" 1 50 "Signal BUY").2.2.2 (by decide)⟩

/-- `C9`: multi-timeframe policy (b) — BUY iff both signals are BUY, SELL if
either is SELL, HOLD otherwise. -/
theorem c9_combine_signals_policy (a b : String) :
    (combine_signals a b = "BUY" ↔ a = "BUY" ∧ b = "BUY") ∧
    (a = "SELL" ∨ b = "SELL" → combine_signals a b = "SELL") ∧
    (¬(a = "BUY" ∧ b = "BUY") → ¬(a = "SELL" ∨ b = "SELL") →
      combine_signals a b = "HOLD") := by
  unfold combine_signals
  refine ⟨?_, fun hs => ?_, fun hb hs => ?_⟩
  · constructor
    · intro h
      by_cases hbb : a = "BUY" ∧ b = "BUY"
      · exact hbb
      · exfalso
        rw [if_neg hbb] at h
        by_cases hss : a = "SELL" ∨ b = "SELL" <;> simp [hss] at h
    · intro hbb; rw [if_pos hbb]
  · have hbb : ¬(a = "BUY" ∧ b = "BUY") := by
      rcases hs with h | h <;> rw [h] <;> simp
    rw [if_neg hbb, if_pos hs]
  · rw [if_neg hb, if_neg hs]

/-- Witness for `C9`: short=BUY with long=SELL yields SELL. -/
theorem c9_combine_signals_policy_witness : combine_signals "BUY" "SELL" = "SELL" :=
  (c9_combine_signals_policy "BUY" "SELL").2.1 (Or.inr rfl)

/-- Counterexample to `C3` as stated: with ATR period 1, after a flat candle at
100 the trailing stop is 98; a wide candle (high 150, low 90) closing at 101 —
a price above every previous price — raises the ATR to 60 and the recomputed
trailing stop drops to 11 < 98 while the position stays open. -/
theorem c3_trailing_stop_drop_counterexample :
    c3AfterFlat.highest_price = some 100 ∧
    c3AfterFlat.trailing_stop = some 98 ∧
    c3AfterFlat.current_position = some ⟨"LTCUSDT", 1, 100, "Signal BUY"⟩ ∧
    (100:ℚ) ≤ 101 ∧
    c3AfterSpike.current_position = some ⟨"LTCUSDT", 1, 100, "Signal BUY"⟩ ∧
    c3AfterSpike.highest_price = some 101 ∧
    c3AfterSpike.trailing_stop = some 11 ∧
    (11:ℚ) < 98 := by
  norm_num [c3AfterSpike, c3AfterFlat, c3Open, c3Fresh, PM.monitor_position,
    PM.enter_position, PM.mkPMState, PM.update_risk, PM.redCandleCheck,
    PM.calculate_atr, dequeAppend, trValues, trueRange, newHighB, stopFormula,
    pyTruthy, PM.exit_position]

/-- `C3` amended: a single `update_risk` at a price at or above the recorded
high yields a trailing stop no lower than the previous one, provided the
previous stop was computed by the stop formula at the current ATR (i.e. the
ATR has not changed since) and the percentage is at most 1 — unless the call
exits the position. -/
theorem c3_trailing_stop_monotone (s : PM.PMState) (pos : Position) (h p : ℚ)
    (ts : Option ℚ) (hpos : s.current_position = some pos)
    (hh : s.highest_price = some h)
    (hts : s.trailing_stop = some (stopFormula s.atr s.stop_loss_mult s.trailing_stop_pct h))
    (hp : h ≤ p) (hpct : s.trailing_stop_pct ≤ 1) :
    (PM.update_risk s p ts).current_position = none ∨
    ((PM.update_risk s p ts).trailing_stop =
        some (stopFormula s.atr s.stop_loss_mult s.trailing_stop_pct (max h p)) ∧
      stopFormula s.atr s.stop_loss_mult s.trailing_stop_pct h ≤
        stopFormula s.atr s.stop_loss_mult s.trailing_stop_pct (max h p)) := by
  have hmono := stopFormula_mono s.atr s.stop_loss_mult s.trailing_stop_pct hpct
    (le_max_left h p)
  by_cases hlt : h < p
  · have hmax : max h p = p := max_eq_right hp
    have hnh : newHighB s.highest_price p = true := by simp [newHighB, hh, hlt]
    rw [hmax] at hmono ⊢
    simp only [PM.update_risk, hpos, hnh, if_true]
    split_ifs <;>
      first
      | exact Or.inl (pm_exit_clears_position _ pos p "Trailing Stop" ts (by simp [hpos]))
      | exact Or.inr ⟨by simp, hmono⟩
  · have hpe : p = h := le_antisymm (not_lt.mp hlt) hp
    subst hpe
    have hmax : max p p = p := max_self p
    have hnh : newHighB s.highest_price p = false := by simp [newHighB, hh]
    rw [hmax] at hmono ⊢
    simp only [PM.update_risk, hpos, hnh, Bool.false_eq_true, if_false]
    split_ifs <;>
      first
      | exact Or.inl (pm_exit_clears_position _ pos p "Trailing Stop" ts (by simp [hpos]))
      | exact Or.inr ⟨by simp [hts], hmono⟩

/-- Witness for `C3` amended: from `openPM` (high 100, stop 98, no ATR), a
price of 101 keeps the stop at or above 98. -/
theorem c3_trailing_stop_monotone_witness :
    (PM.update_risk openPM 101 none).current_position = none ∨
    ((PM.update_risk openPM 101 none).trailing_stop =
        some (stopFormula openPM.atr openPM.stop_loss_mult openPM.trailing_stop_pct
          (max 100 101)) ∧
      stopFormula openPM.atr openPM.stop_loss_mult openPM.trailing_stop_pct 100 ≤
        stopFormula openPM.atr openPM.stop_loss_mult openPM.trailing_stop_pct
          (max 100 101)) :=
  c3_trailing_stop_monotone openPM ⟨"LTCUSDT", 1, 100, "Signal BUY"⟩ 100 101 none
    rfl rfl rfl (by norm_num) (by norm_num [openPM, freshPM, PM.mkPMState, PM.enter_position])

/-- Counterexample to `C4` as stated: in watch mode with open price 100, a
close of 99.5 is strictly below the open, yet `src/position_manager.py` does
not exit (its red-candle test carries a hard-coded 1% tolerance band), so the
claimed zero-tolerance behavior fails on every monitor call of that version. -/
theorem c4_red_candle_tolerance_counterexample :
    watchPM.watch_mode = true ∧
    (199:ℚ)/2 < 100 ∧
    (PM.monitor_position watchPM (199/2) (some 100) none none none).current_position =
      some ⟨"LTCUSDT", 1, 100, "Signal BUY"⟩ ∧
    (PM.monitor_position watchPM (199/2) (some 100) none none none).position_log = [] := by
  norm_num [PM.monitor_position, watchPM, openPM, freshPM, PM.mkPMState,
    PM.enter_position, PM.update_risk, PM.redCandleCheck, PM.calculate_atr,
    dequeAppend, newHighB, stopFormula, pyTruthy, PM.exit_position]

/-- `C4` amended: in watch mode with an open position and open price supplied,
the red-candle exit of `src/position_manager_1.py` fires iff
`currentPrice < openPrice` (tolerance 0), while that of
`src/position_manager.py` fires iff `currentPrice + openPrice*0.01 < openPrice`
(a hard-coded 1% tolerance band). -/
theorem c4_red_candle_exit_condition (s : PM.PMState) (t : PM1.PM1State) (pos : Position)
    (p o : ℚ) (ts : Option ℚ)
    (hs : s.current_position = some pos) (hw : s.watch_mode = true)
    (ht : t.current_position = some pos) (hw1 : t.watch_mode = true) :
    ((PM.redCandleCheck s p (some o) ts).current_position = none ↔ p + o * (1/100) < o) ∧
    ((PM1.redCandleCheck t p (some o) ts).current_position = none ↔ p < o) := by
  constructor
  · constructor
    · intro hnone
      by_cases hc : p + o * (1/100) < o
      · exact hc
      · exfalso
        have hid : PM.redCandleCheck s p (some o) ts = s := by
          simp only [PM.redCandleCheck]
          rw [if_neg (fun hand => hc hand.2)]
        rw [hid, hs] at hnone
        exact Option.noConfusion hnone
    · intro hc
      have hred : PM.redCandleCheck s p (some o) ts =
          PM.exit_position s p "Watch Mode Red Candle" ts := by
        simp only [PM.redCandleCheck]
        rw [if_pos ⟨hw, hc⟩]
      rw [hred]
      exact pm_exit_clears_position s pos p _ ts hs
  · constructor
    · intro hnone
      by_cases hc : p < o
      · exact hc
      · exfalso
        have hid : PM1.redCandleCheck t p (some o) ts = t := by
          simp only [PM1.redCandleCheck]
          rw [if_neg (fun hand => hc hand.2)]
        rw [hid, ht] at hnone
        exact Option.noConfusion hnone
    · intro hc
      have hred : PM1.redCandleCheck t p (some o) ts =
          PM1.exit_position t p "Watch Mode Red Candle" ts := by
        simp only [PM1.redCandleCheck]
        rw [if_pos ⟨hw1, hc⟩]
      rw [hred]
      exact pm1_exit_clears_position t pos p _ ts ht

/-- Witness for `C4` amended: at close 98 and open 100 both versions exit. -/
theorem c4_red_candle_exit_condition_witness :
    ((PM.redCandleCheck watchPM 98 (some 100) none).current_position = none ↔
      (98:ℚ) + 100 * (1/100) < 100) ∧
    ((PM1.redCandleCheck watchPM1 98 (some 100) none).current_position = none ↔
      (98:ℚ) < 100) :=
  c4_red_candle_exit_condition watchPM watchPM1 ⟨"LTCUSDT", 1, 100, "Signal BUY"⟩
    98 100 none rfl rfl rfl rfl

/-- `C8`: watch mode is one-way per open position — if it is set and an
`update_risk` or `monitor_position` call leaves the position open, it is still
set afterwards (it is reset only by exiting or re-entering). -/
theorem c8_watch_mode_one_way (s : PM.PMState) (p : ℚ) (o hi lo ts : Option ℚ)
    (hw : s.watch_mode = true) :
    ((PM.update_risk s p ts).current_position ≠ none →
      (PM.update_risk s p ts).watch_mode = true) ∧
    ((PM.monitor_position s p o hi lo ts).current_position ≠ none →
      (PM.monitor_position s p o hi lo ts).watch_mode = true) := by
  constructor
  · intro hne
    rcases pm_update_risk_preserves_watch s p ts hw with h | h
    · exact absurd h hne
    · exact h
  · cases hcp : s.current_position with
    | none =>
      intro _
      simpa [PM.monitor_position, hcp] using hw
    | some pos =>
      simp only [PM.monitor_position, hcp]
      exact pm_monitor_watch_aux _ p o ts hw

/-- Witness for `C8`: a flat monitor call at price 100 keeps the position open
and the watch flag set. -/
theorem c8_watch_mode_one_way_witness :
    (PM.monitor_position watchPM 100 none none none none).watch_mode = true := by
  refine (c8_watch_mode_one_way watchPM 100 none none none none rfl).2 ?_
  norm_num [PM.monitor_position, watchPM, openPM, freshPM, PM.mkPMState,
    PM.enter_position, PM.update_risk, PM.redCandleCheck, PM.calculate_atr,
    dequeAppend, newHighB, stopFormula, pyTruthy, PM.exit_position]
  exact Option.some_ne_none _

/-- `C10`: a volatility window full of identical degenerate bars yields an ATR
of exactly 0, and `update_risk` treats a zero ATR like an undefined one — on a
new price high the trailing stop uses the percentage formula
`p*(1 - trailingStopPct)`, identically to the `atr = none` state. -/
theorem c10_zero_atr_fallback (s : PM.PMState) (pos : Position) (h p v : ℚ)
    (ts : Option ℚ) (k : ℕ)
    (hpos : s.current_position = some pos) (hatr : s.atr = some 0)
    (hh : s.highest_price = some h) (hlt : h < p)
    (hwm : s.watch_mode = false) (hth : p < pos.entry_price * (29/20)) :
    PM.calculate_atr { s with atr_period := k,
                              price_history := List.replicate (k+1) ⟨v, v, v⟩ } = some 0 ∧
    (PM.update_risk s p ts).trailing_stop = some (p * (1 - s.trailing_stop_pct)) ∧
    (PM.update_risk s p ts).trailing_stop =
      (PM.update_risk { s with atr := none } p ts).trailing_stop := by
  have hnh : newHighB s.highest_price p = true := by simp [newHighB, hh, hlt]
  have hle : ¬(pos.entry_price * (29/20) ≤ p) := not_le.mpr hth
  refine ⟨?_, ?_, ?_⟩
  · simp [PM.calculate_atr, trValues_replicate_sum]
  · simp [PM.update_risk, hpos, hnh, hwm, hle, hatr, stopFormula, pyTruthy]
  · simp [PM.update_risk, hpos, hnh, hwm, hle, hatr, stopFormula, pyTruthy]

/-- Witness for `C10`: `openPM` with a recorded zero ATR, price 101 above the
high 100, and a window of three identical bars for ATR period 2. -/
theorem c10_zero_atr_fallback_witness :
    PM.calculate_atr { zeroAtrPM with atr_period := 2,
                                      price_history := List.replicate 3 ⟨5, 5, 5⟩ } = some 0 ∧
    (PM.update_risk zeroAtrPM 101 none).trailing_stop =
      some (101 * (1 - zeroAtrPM.trailing_stop_pct)) ∧
    (PM.update_risk zeroAtrPM 101 none).trailing_stop =
      (PM.update_risk { zeroAtrPM with atr := none } 101 none).trailing_stop :=
  c10_zero_atr_fallback zeroAtrPM ⟨"LTCUSDT", 1, 100, "Signal BUY"⟩ 100 101 5 none 2
    rfl rfl rfl (by norm_num) rfl (by norm_num)

end LifecTb
